import Mathlib

/-!
Verification development for the `MinecraftMCPBridge` class of
`src/bridges/mcp_bridge.py` (the ProcessRPCBridge of the specification).
The bridge owns at most one child process, performs a JSON-RPC
`initialize` handshake on startup, and serializes tool calls through a
single lock.  We give a shallow embedding: the mutable instance fields
(`self.process`, `self._mcp_initialized`, `self.mcp_available`) become a
`BridgeState` record, and everything the environment does (the child
process, the OS, the JSON parser) is supplied as an explicit oracle
argument, so each method becomes a pure function from state and oracle to
result and state.  The Python exception discipline is made explicit by
returning `Except PyExc _`: a `.error` value means an exception escaped
the method across the public boundary.
-/

set_option linter.unusedVariables false

/-- One spawned child process as the bridge observes it: the OS pid and
whether `poll()` currently reports it running (`poll() is None`). -/
structure ChildProc where
  pid : Nat
  alive : Bool
deriving DecidableEq

/-- The mutable instance fields of `MinecraftMCPBridge`:
`self.mcp_available` (set in `__init__` from `Path(self.mcp_path).exists()`
and never written again), `self.process` (the child handle or `None`) and
`self._mcp_initialized` (the handshake flag). -/
structure BridgeState where
  mcp_available : Bool
  process : Option ChildProc
  mcp_initialized : Bool
deriving DecidableEq

/-- `__init__`: record whether the executable path exists; no child yet,
handshake flag clear. -/
def bridge_init (pathExists : Bool) : BridgeState :=
  { mcp_available := pathExists, process := none, mcp_initialized := false }

/-- `is_server_alive`: `False` when `self.process` is `None`, otherwise
whether `poll()` reports the child still running. -/
def is_server_alive (s : BridgeState) : Bool :=
  match s.process with
  | none => false
  | some p => p.alive

/-- `stop_server`: if a child is alive it is terminated (with a 2 second
grace period and a `kill()` on `TimeoutExpired`, caught inside the method);
in every case the `finally` / `else` arm clears `self.process` and
`self._mcp_initialized`.  The two arms leave the same bridge state; only
the effect on the child differs, which the state does not record. -/
def stop_server (s : BridgeState) : BridgeState :=
  if s.process.isSome && is_server_alive s then
    { s with process := none, mcp_initialized := false }
  else
    { s with process := none, mcp_initialized := false }

/-- A parsed JSON line as the handshake observes it.  The code probes the
parsed value with `'error' in response_data` / `'result' in response_data`
and, on a hit, subscripts it by that string.  For a JSON object (a dict)
the membership tests check keys and the subscript succeeds.  For a JSON
string or array, `in` is substring or element containment — it does not
raise — but the subsequent subscript by a string raises `TypeError`.  For
a scalar (number, boolean, null) the membership test itself raises
`TypeError`.  Objects and strings/arrays are therefore abstracted to
their two membership outcomes, scalars to `scalar`. -/
inductive ParsedLine where
  | obj (hasError : Bool) (hasResult : Bool)
  | strOrList (hasError : Bool) (hasResult : Bool)
  | scalar
deriving DecidableEq

/-- What one line of child output looks like to `json.loads`:
either parsing raises (with some exception text) or it yields a value. -/
inductive LineContent where
  | notJson (emsg : String)
  | json (v : ParsedLine)
deriving DecidableEq

/-- Environment behaviour during the handshake block of `start_server`
(the inner `try` around the `initialize` write and the polled read):
the `stdin.write`/`flush` may raise, a first stdout line may arrive
within the 5 second window, or nothing arrives before the timeout. -/
inductive HsEvent where
  | writeRaises (emsg : String)
  | line (c : LineContent)
  | timeout
deriving DecidableEq

/-- Environment behaviour for one `start_server` attempt: whether
`subprocess.Popen` succeeds, the pid it hands out, whether the child is
still alive after the 0.5 s settle sleep, and what the handshake sees. -/
structure StartOracle where
  spawnOk : Bool
  newPid : Nat
  aliveAfterSettle : Bool
  hs : HsEvent
deriving DecidableEq

/-- `start_server(force_restart)`: guard on `mcp_available`; no-op when
already alive and initialized and not forced; otherwise stop any existing
child, spawn, settle, check aliveness, then run the handshake.  Branches
mirror lines 78–171 of the source:
* a line parsing to a JSON object with an `error` field prints it, stops
  the child and returns `False`;
* an object with a `result` field sets the handshake flag and returns
  `True`;
* an object with neither field falls through both tests, leaving the flag
  as it was, and returns `True`;
* a string/array line in which the `error` containment test hits raises
  `TypeError` at the `response_data['error']` subscript (line 151), which
  the inner `except` catches, setting the flag and returning `True`
  without stopping the child; a `result` hit sets the flag at line 155
  before the subscript at line 156 raises, so the flag is set and `True`
  returned either way; with neither hit it falls through both tests,
  leaving the flag as it was, and returns `True`;
* a scalar line raises `TypeError` at the membership test itself, and an
  unparseable line raises in `json.loads`; both are caught, set the flag,
  and return `True`;
* a write failure is likewise caught, sets the flag, and returns `True`;
* silence for 5 s sets the flag ("assume success") and returns `True`. -/
def start_server (s : BridgeState) (force_restart : Bool) (o : StartOracle) :
    Bool × BridgeState :=
  if !s.mcp_available then (false, s)
  else if !force_restart && is_server_alive s && s.mcp_initialized then (true, s)
  else
    let s1 := if s.process.isSome then stop_server s else s
    if !o.spawnOk then (false, s1)
    else
      let s2 := { s1 with process := some ⟨o.newPid, o.aliveAfterSettle⟩ }
      if !o.aliveAfterSettle then (false, s2)
      else
        match o.hs with
        | .writeRaises _ => (true, { s2 with mcp_initialized := true })
        | .timeout => (true, { s2 with mcp_initialized := true })
        | .line (.notJson _) => (true, { s2 with mcp_initialized := true })
        | .line (.json .scalar) => (true, { s2 with mcp_initialized := true })
        | .line (.json (.strOrList he hr)) =>
          if he then (true, { s2 with mcp_initialized := true })
          else if hr then (true, { s2 with mcp_initialized := true })
          else (true, s2)
        | .line (.json (.obj he hr)) =>
          if he then (false, stop_server s2)
          else if hr then (true, { s2 with mcp_initialized := true })
          else (true, s2)

/-- The Python exceptions the call exchange can raise:
`BrokenPipeError` or any other `Exception` (carrying its `str`). -/
inductive PyExc where
  | brokenPipe
  | other (msg : String)
deriving DecidableEq

/-- Outcome of the request write (`stdin.write` + `flush`) in `call_tool`. -/
inductive WriteEvent where
  | ok
  | brokenPipe
  | otherExc (msg : String)
deriving DecidableEq

/-- What the helper read thread observes before `join(timeout)` returns:
a line (possibly unparseable), end of stream (`readline()` returns the
empty string, so `if line:` fails), or the read still pending. -/
inductive ReadEvent where
  | line (c : LineContent)
  | eof
  | pending
deriving DecidableEq

/-- Environment behaviour for one `call_tool` invocation: the behaviour of
a `start_server` attempt should one be needed, the write outcome, the read
outcome, and what `poll()` reports if the timeout branch re-checks
aliveness. -/
structure CallOracle where
  start : StartOracle
  write : WriteEvent
  read : ReadEvent
  aliveAtTimeout : Bool
deriving DecidableEq

/-- The shared `result` dict as it stands after `thread.join(timeout)`:
the optional parsed line under key `data` and the optional message under
key `error`. -/
structure ReadCell where
  data : Option ParsedLine
  err : Option String
deriving DecidableEq

/-- The timeout message placed in `result` before the read starts
(line 208 of the source). -/
def timeoutMsg (timeout : Nat) : String :=
  "Timeout waiting for MCP response (>" ++ toString timeout ++ "s)"

/-- The `read_response` helper: `result` starts as the timeout error; a
line that parses replaces it with `data` and pops `error`; a parse failure
overwrites `error` with a read-error message; end of stream or a still
pending read leave the initial dict untouched. -/
def read_response (timeout : Nat) (e : ReadEvent) : ReadCell :=
  let cell : ReadCell := ⟨none, some (timeoutMsg timeout)⟩
  match e with
  | .pending => cell
  | .eof => cell
  | .line (.notJson m) => { cell with err := some ("Read error: " ++ m) }
  | .line (.json v) => ⟨some v, none⟩

/-- What `call_tool` hands back: either the parsed response line verbatim
(`result['data']`), or a dict `{'error': msg}` built by the bridge. -/
inductive CallResult where
  | payload (v : ParsedLine)
  | errDict (msg : String)
deriving DecidableEq

/-- Whether the returned value is a dict (a JSON object). -/
def CallResult.isDict : CallResult → Bool
  | .payload (.obj _ _) => true
  | .payload (.strOrList _ _) => false
  | .payload .scalar => false
  | .errDict _ => true

/-- Whether the returned value is a dict containing an `error` key. -/
def CallResult.hasErrorKey : CallResult → Bool
  | .payload (.obj he _) => he
  | .payload (.strOrList _ _) => false
  | .payload .scalar => false
  | .errDict _ => true

/-- The `try` block of `call_tool` (lines 202–233): write the request,
then join the read against the timeout; on success return `result['data']`
as is; otherwise re-poll the child, clearing the handshake flag when it
died, and return the recorded error (`result.get('error', 'Timeout')`).
Write failures propagate as exceptions to the handlers. -/
def call_exchange (timeout : Nat) (s : BridgeState) (o : CallOracle) :
    Except PyExc (CallResult × BridgeState) :=
  match o.write with
  | .brokenPipe => .error .brokenPipe
  | .otherExc m => .error (.other m)
  | .ok =>
    let cell := read_response timeout o.read
    match cell.data with
    | some v => .ok (.payload v, s)
    | none =>
      let aliveNow := s.process.isSome && o.aliveAtTimeout
      let s2 : BridgeState :=
        { s with process := s.process.map fun p => ⟨p.pid, aliveNow⟩,
                 mcp_initialized := aliveNow && s.mcp_initialized }
      .ok (.errDict (cell.err.getD "Timeout"), s2)

/-- The two `except` clauses of `call_tool` (lines 235–243):
`BrokenPipeError` drops the child handle and clears the handshake flag,
returning the connection-lost dict; any other exception is returned as
`{'error': str(e)}` with the state untouched. -/
def handle_call_exc (s : BridgeState) :
    Except PyExc (CallResult × BridgeState) → Except PyExc (CallResult × BridgeState)
  | .ok r => .ok r
  | .error .brokenPipe =>
    .ok (.errDict "Server connection lost",
         { s with process := none, mcp_initialized := false })
  | .error (.other m) => .ok (.errDict m, s)

/-- `call_tool(tool_name, params, timeout=120)`: under the call lock,
ensure the child is alive and initialized (attempting `start_server` and
returning the startup-failure dict when that fails), then run the
exchange under the exception handlers.  A `.error` result would mean an
exception escaped `call_tool`; the theorems show it never does. -/
def call_tool (tool_name params : String) (s : BridgeState) (o : CallOracle)
    (timeout : Nat := 120) : Except PyExc (CallResult × BridgeState) :=
  if !(is_server_alive s) || !s.mcp_initialized then
    match start_server s false o.start with
    | (false, s1) => .ok (.errDict "Failed to start MCP server", s1)
    | (true, s1) => handle_call_exc s1 (call_exchange timeout s1 o)
  else
    handle_call_exc s (call_exchange timeout s o)

/-- The bridge state after a `call_tool` invocation (the `.error` arm is
never reached; it is mapped to the input state so the function is total). -/
def call_tool_post (tool_name params : String) (s : BridgeState) (o : CallOracle)
    (timeout : Nat := 120) : BridgeState :=
  match call_tool tool_name params s o timeout with
  | .ok (_, s1) => s1
  | .error _ => s

/-- The body of a `POST /mcp/call` request as the Flask handler reads it:
`data.get('tool')` and `data.get('arguments', {})`. -/
structure McpCallBody where
  tool : String
  arguments : String
deriving DecidableEq

/-- The `mcp_call` Flask handler (lines 312–321): forwards the body's tool
and arguments to `bridge.call_tool`, passing no timeout. -/
def mcp_call (body : McpCallBody) (s : BridgeState) (o : CallOracle) :
    Except PyExc (CallResult × BridgeState) :=
  call_tool body.tool body.arguments s o

/-- Whether the write of the request line failed (raised) in `call_tool`. -/
def isWriteFailure : WriteEvent → Bool
  | .ok => false
  | .brokenPipe => true
  | .otherExc _ => true

/-- Whether the read attempt failed to produce a parsed line within the
timeout: still pending, end of stream, or an unparseable line. -/
def isReadFailure : ReadEvent → Bool
  | .pending => true
  | .eof => true
  | .line (.notJson _) => true
  | .line (.json _) => false

/-- The failure modes of one `call_tool` invocation: the startup attempt
fails when one is needed, the request write raises, or the read attempt
yields no parsed line. -/
def FailureMode (s : BridgeState) (o : CallOracle) : Prop :=
  ((is_server_alive s && s.mcp_initialized) = false ∧
    (start_server s false o.start).1 = false)
  ∨ isWriteFailure o.write = true
  ∨ isReadFailure o.read = true

/-- A benign environment for one call: the spawn succeeds with pid `q`,
the handshake answers with a `result` line, the request write succeeds and
the child answers with a well-formed result object. -/
def goodRespawnOracle (q : Nat) : CallOracle :=
  ⟨⟨true, q, true, .line (.json (.obj false true))⟩, .ok,
   .line (.json (.obj false true)), true⟩

/-- States of one bridge instance reachable through its public operations
from a freshly constructed bridge, allowing the child process to die of
its own accord between operations. -/
inductive BridgeReachable : BridgeState → Prop where
  | init (pathExists : Bool) : BridgeReachable (bridge_init pathExists)
  | start (s : BridgeState) (f : Bool) (o : StartOracle) :
      BridgeReachable s → BridgeReachable (start_server s f o).2
  | call (s : BridgeState) (n p : String) (o : CallOracle) (t : Nat) :
      BridgeReachable s → BridgeReachable (call_tool_post n p s o t)
  | stop (s : BridgeState) : BridgeReachable s → BridgeReachable (stop_server s)
  | childDies (s : BridgeState) : BridgeReachable s →
      BridgeReachable { s with process := s.process.map fun p => ⟨p.pid, false⟩ }

/-- The invariant used for the idempotent-start claim: a child handle can
only exist when the executable resource was found at construction time,
because `start_server` refuses to spawn otherwise and no operation ever
changes `mcp_available`. -/
def BridgeInv (s : BridgeState) : Prop :=
  s.process.isSome = true → s.mcp_available = true

/-- Progress of one thread through the body of `call_tool`:
`idle` before `with self._call_lock` (line 185), `locked` inside the lock
before the request write (lines 186–203), `waiting` after the write while
awaiting the response or the timeout (lines 204–233), `done` after the
lock is released. -/
inductive Phase where
  | idle
  | locked
  | waiting
  | done
deriving DecidableEq

/-- Pointwise update of a thread-indexed phase map. -/
def setPhase (f : Nat → Phase) (t : Nat) (p : Phase) : Nat → Phase :=
  fun u => if u = t then p else f u

/-- The shared picture of one bridge instance under concurrent `call_tool`
invocations: who (if anyone) holds `self._call_lock`, and each thread's
phase.  Threads are named by naturals. -/
structure LockSys where
  lock : Option Nat
  phase : Nat → Phase

/-- All threads outside the call; the lock is free. -/
def lockSysInit : LockSys := ⟨none, fun _ => .idle⟩

/-- Interleaving semantics of `threading.Lock` as `call_tool` uses it:
a thread may enter the `with` block only when the lock is free; it may
write the request only while holding the lock; and it leaves the `with`
block (releasing the lock) only after its exchange — response, timeout or
handled exception — finishes. -/
inductive LockStep : LockSys → LockSys → Prop where
  | acquire (s : LockSys) (t : Nat) (hl : s.lock = none) (hp : s.phase t = .idle) :
      LockStep s ⟨some t, setPhase s.phase t .locked⟩
  | writeReq (s : LockSys) (t : Nat) (hl : s.lock = some t) (hp : s.phase t = .locked) :
      LockStep s ⟨s.lock, setPhase s.phase t .waiting⟩
  | finish (s : LockSys) (t : Nat) (hl : s.lock = some t) (hp : s.phase t = .waiting) :
      LockStep s ⟨none, setPhase s.phase t .done⟩

/-- System states reachable from the all-idle state by interleaved steps. -/
inductive LockReachable : LockSys → Prop where
  | init : LockReachable lockSysInit
  | step (s s' : LockSys) : LockReachable s → LockStep s s' → LockReachable s'

/-- Thread `t` is inside the critical section of `call_tool`: it has
entered the `with self._call_lock` block and not yet left it — in
particular, it has written (or is about to write) a request and is the
one awaiting the response. -/
def InFlight (s : LockSys) (t : Nat) : Prop :=
  s.phase t = .locked ∨ s.phase t = .waiting

/-- The lock system after thread 0 acquires the lock. -/
def c1s1 : LockSys := ⟨some 0, setPhase lockSysInit.phase 0 .locked⟩

/-- The lock system after thread 0 acquires the lock and writes its
request: thread 0 is awaiting the response. -/
def c1s2 : LockSys := ⟨c1s1.lock, setPhase c1s1.phase 0 .waiting⟩

/-- A ready bridge: executable found, one live child (pid 5), handshake
complete. -/
def c5_state : BridgeState := ⟨true, some ⟨5, true⟩, true⟩

/-- A call during which the child stays silent: the request write succeeds
and the read is still pending when `join(timeout)` returns. -/
def c5_oracle : CallOracle := ⟨⟨true, 5, true, .timeout⟩, .ok, .pending, true⟩

/-- A bridge whose executable path does not exist (`mcp_available` is
false), as after constructing against a missing `dist/index.js`. -/
def c6_state : BridgeState := bridge_init false

/-- An arbitrary environment for the missing-executable call; the call
never consults it. -/
def c6_oracle : CallOracle := ⟨⟨true, 9, true, .timeout⟩, .ok, .pending, true⟩

/-- A ready bridge for the HTTP-call claim. -/
def c10_state : BridgeState := ⟨true, some ⟨3, true⟩, true⟩

/-- A silent-child environment for the HTTP-call claim. -/
def c10_oracle : CallOracle := ⟨⟨true, 3, true, .timeout⟩, .ok, .pending, true⟩

/-- The body of a concrete `POST /mcp/call` request. -/
def c10_body : McpCallBody := ⟨"minecraft_track_event", "evt"⟩

/-- The bridge state left by the timeout branch of the exchange: the
stored aliveness is refreshed from the re-check poll and the handshake
flag survives only when the child is still alive. -/
def timeoutPostState (s : BridgeState) (aliveAtTimeout : Bool) : BridgeState :=
  { s with
    process := s.process.map fun q => ⟨q.pid, s.process.isSome && aliveAtTimeout⟩,
    mcp_initialized := (s.process.isSome && aliveAtTimeout) && s.mcp_initialized }

/-- A ready bridge for the propagation counterexample. -/
def c2_state : BridgeState := ⟨true, some ⟨4, true⟩, true⟩

/-- A child that answers the call with a line that is valid JSON but not an
object — for example the single line `5`. -/
def c2_oracle : CallOracle :=
  ⟨⟨true, 4, true, .timeout⟩, .ok, .line (.json .scalar), true⟩

/-- A ready bridge for the propagation witness. -/
def c2w_state : BridgeState := ⟨true, some ⟨2, true⟩, true⟩

/-- A call whose request write hits a broken pipe. -/
def c2w_oracle : CallOracle := ⟨⟨true, 2, true, .timeout⟩, .brokenPipe, .pending, true⟩

/-- A ready bridge with executable found, for the broken-pipe claim. -/
def c4_state : BridgeState := ⟨true, some ⟨6, true⟩, true⟩

/-- A call whose request write raises `BrokenPipeError`. -/
def c4_oracle : CallOracle := ⟨⟨true, 6, true, .timeout⟩, .brokenPipe, .pending, true⟩

/-- A ready bridge for the timeout-frame claim. -/
def c9_state : BridgeState := ⟨true, some ⟨8, true⟩, true⟩

/-- A call that times out while the child stays alive. -/
def c9_oracle : CallOracle := ⟨⟨true, 8, true, .timeout⟩, .ok, .pending, true⟩

/-- A benign handshake for reaching a ready state: spawn pid 7, child
answers the `initialize` request with a `result` line. -/
def c7_start_oracle : StartOracle := ⟨true, 7, true, .line (.json (.obj false true))⟩

/-- The ready state reached by starting a fresh bridge against the benign
handshake environment. -/
def c7_state : BridgeState := (start_server (bridge_init true) false c7_start_oracle).2

/-- A handshake in which the child's first line is a JSON object with
neither an `error` nor a `result` field — for example the line `{}`. -/
def c3_oracle : StartOracle := ⟨true, 1, true, .line (.json (.obj false false))⟩

/-- C8: `stop_server` is idempotent and total: in every bridge state,
including the one with no child process, it returns (the only exception it
can meet, `TimeoutExpired` from `wait`, is caught inside), and afterwards
the child handle is absent and the handshake flag is cleared
unconditionally; a second call leaves exactly the state of the first. -/
theorem C8_stop_idempotent (s : BridgeState) :
    (stop_server s).process = none ∧
    (stop_server s).mcp_initialized = false ∧
    stop_server (stop_server s) = stop_server s := by
  simp [stop_server]

/-- C5, counterexample: the claim states the timeout message is
`'Timeout waiting for response (>Ns)'`, but line 208 of the source writes
`'Timeout waiting for MCP response (>Ns)'`.  On a concrete silent-child
call with the default 120 s timeout the returned dict carries the latter
string, which differs from the claimed one. -/
theorem C5_counterexample :
    call_tool "minecraft_get_insights" "ctx" c5_state c5_oracle 120 =
      .ok (.errDict "Timeout waiting for MCP response (>120s)", c5_state) ∧
    "Timeout waiting for MCP response (>120s)" ≠
      "Timeout waiting for response (>120s)" := by
  exact ⟨by rfl, by decide⟩

/-- C5, amended: if the child never writes a response line within the
caller-supplied timeout of `t` seconds, `call_tool` returns a structured
error dict whose message is `'Timeout waiting for MCP response (>ts)'` —
in particular a result containing an `error` key mentioning timeout. -/
theorem C5_timeout_message (n p : String) (t : Nat) (s : BridgeState)
    (o : CallOracle) (halive : is_server_alive s = true)
    (hinit : s.mcp_initialized = true) (hw : o.write = .ok)
    (hr : o.read = .pending) :
    (∃ s1, call_tool n p s o t = .ok (.errDict (timeoutMsg t), s1)) ∧
    timeoutMsg t = "Timeout waiting for MCP response (>" ++ toString t ++ "s)" := by
  refine ⟨⟨{ s with
      process := s.process.map fun q => ⟨q.pid, s.process.isSome && o.aliveAtTimeout⟩,
      mcp_initialized := (s.process.isSome && o.aliveAtTimeout) && s.mcp_initialized },
    ?_⟩, rfl⟩
  simp [call_tool, halive, hinit, hw, hr, call_exchange, read_response,
    handle_call_exc]

/-- C5, witness: the amended theorem applied to the concrete silent-child
run with a 7 second timeout. -/
theorem C5_timeout_message_witness :
    ∃ s1, call_tool "minecraft_get_insights" "ctx" c5_state c5_oracle 7 =
      .ok (.errDict (timeoutMsg 7), s1) :=
  (C5_timeout_message "minecraft_get_insights" "ctx" 7 c5_state c5_oracle
    rfl rfl rfl rfl).1

/-- C6, counterexample: the claim states the startup-failure result is
`{'error': 'Failed to start process'}`, but line 189 of the source returns
`{'error': 'Failed to start MCP server'}`.  On a concrete call with a
missing executable the returned dict carries the latter string. -/
theorem C6_counterexample :
    call_tool "minecraft_analyze_build" "b" c6_state c6_oracle 120 =
      .ok (.errDict "Failed to start MCP server", c6_state) ∧
    "Failed to start MCP server" ≠ "Failed to start process" := by
  exact ⟨by rfl, by decide⟩

/-- C6, amended: when `call_tool` finds the child not alive or the
handshake incomplete and the executable path is missing, the internal
start attempt fails and `call_tool` returns
`{'error': 'Failed to start MCP server'}` with the state unchanged — in
particular no process is spawned and, since the result is the same for
every write/read behaviour of the environment, no request is written. -/
theorem C6_start_failure (n p : String) (t : Nat) (s : BridgeState)
    (o : CallOracle) (hav : s.mcp_available = false)
    (hneed : is_server_alive s = false ∨ s.mcp_initialized = false) :
    call_tool n p s o t = .ok (.errDict "Failed to start MCP server", s) := by
  rcases hneed with h | h <;> simp [call_tool, start_server, h, hav]

/-- C6, witness: the amended theorem applied to the concrete bridge with a
missing executable. -/
theorem C6_start_failure_witness :
    call_tool "minecraft_analyze_build" "b" c6_state c6_oracle 120 =
      .ok (.errDict "Failed to start MCP server", c6_state) :=
  C6_start_failure "minecraft_analyze_build" "b" 120 c6_state c6_oracle
    rfl (Or.inl rfl)

/-- C10: `call_tool`'s timeout parameter defaults to 120 seconds, and the
`POST /mcp/call` handler passes no timeout, so every HTTP-initiated call
runs with exactly the 120 second bound, whatever the tool and arguments:
the handler's call equals `call_tool` at timeout 120, and when the child
stays silent the handler's result carries the 120 s timeout message. -/
theorem C10_http_default_timeout (body : McpCallBody) (s : BridgeState)
    (o : CallOracle) :
    mcp_call body s o = call_tool body.tool body.arguments s o 120 ∧
    (is_server_alive s = true → s.mcp_initialized = true →
      o.write = .ok → o.read = .pending →
      ∃ s1, mcp_call body s o = .ok (.errDict (timeoutMsg 120), s1)) ∧
    timeoutMsg 120 = "Timeout waiting for MCP response (>120s)" := by
  refine ⟨rfl, ?_, by decide⟩
  intro h1 h2 h3 h4
  refine ⟨{ s with
      process := s.process.map fun q => ⟨q.pid, s.process.isSome && o.aliveAtTimeout⟩,
      mcp_initialized := (s.process.isSome && o.aliveAtTimeout) && s.mcp_initialized },
    ?_⟩
  simp [mcp_call, call_tool, h1, h2, h3, h4, call_exchange, read_response,
    handle_call_exc]

/-- C10, witness: the theorem applied to a concrete body, ready state and
silent child. -/
theorem C10_http_default_timeout_witness :
    ∃ s1, mcp_call c10_body c10_state c10_oracle =
      .ok (.errDict (timeoutMsg 120), s1) :=
  (C10_http_default_timeout c10_body c10_state c10_oracle).2.1 rfl rfl rfl rfl

/-- The request/response exchange under its exception handlers always
yields an `.ok` result, and a failing write or read yields an error dict. -/
theorem handle_exchange_total (t : Nat) (s : BridgeState) (o : CallOracle) :
    ∃ r s1, handle_call_exc s (call_exchange t s o) = .ok (r, s1) ∧
      ((isWriteFailure o.write = true ∨ isReadFailure o.read = true) →
        r.isDict = true ∧ r.hasErrorKey = true) := by
  cases hw : o.write with
  | brokenPipe =>
    refine ⟨.errDict "Server connection lost",
      { s with process := none, mcp_initialized := false }, ?_, fun _ => ⟨rfl, rfl⟩⟩
    simp [call_exchange, hw, handle_call_exc]
  | otherExc m =>
    refine ⟨.errDict m, s, ?_, fun _ => ⟨rfl, rfl⟩⟩
    simp [call_exchange, hw, handle_call_exc]
  | ok =>
    cases hr : o.read with
    | pending =>
      refine ⟨.errDict (timeoutMsg t), timeoutPostState s o.aliveAtTimeout, ?_,
        fun _ => ⟨rfl, rfl⟩⟩
      simp [call_exchange, hw, hr, read_response, handle_call_exc, timeoutPostState]
    | eof =>
      refine ⟨.errDict (timeoutMsg t), timeoutPostState s o.aliveAtTimeout, ?_,
        fun _ => ⟨rfl, rfl⟩⟩
      simp [call_exchange, hw, hr, read_response, handle_call_exc, timeoutPostState]
    | line c =>
      cases c with
      | notJson m =>
        refine ⟨.errDict ("Read error: " ++ m), timeoutPostState s o.aliveAtTimeout,
          ?_, fun _ => ⟨rfl, rfl⟩⟩
        simp [call_exchange, hw, hr, read_response, handle_call_exc, timeoutPostState]
      | json v =>
        refine ⟨.payload v, s, ?_, ?_⟩
        · simp [call_exchange, hw, hr, read_response, handle_call_exc]
        · rintro (h | h)
          · exact absurd h (by decide)
          · simp [isReadFailure] at h

/-- Helper for the propagation claim: when the ensure-started branch is
taken, `call_tool` still always returns normally and failures carry an
error dict. -/
theorem call_tool_total_start (n p : String) (t : Nat) (s : BridgeState)
    (o : CallOracle)
    (hcond : (!(is_server_alive s) || !s.mcp_initialized) = true) :
    (∃ rs, call_tool n p s o t = .ok rs) ∧
    (FailureMode s o → ∃ r s1, call_tool n p s o t = .ok (r, s1) ∧
      r.isDict = true ∧ r.hasErrorKey = true) := by
  rcases hst : start_server s false o.start with ⟨b, s1⟩
  cases b with
  | false =>
    have hct : call_tool n p s o t =
        .ok (.errDict "Failed to start MCP server", s1) := by
      simp [call_tool, hcond, hst]
    exact ⟨⟨_, hct⟩, fun _ => ⟨_, _, hct, rfl, rfl⟩⟩
  | true =>
    obtain ⟨r, s2, heq, himp⟩ := handle_exchange_total t s1 o
    have hct : call_tool n p s o t = handle_call_exc s1 (call_exchange t s1 o) := by
      simp [call_tool, hcond, hst]
    rw [heq] at hct
    refine ⟨⟨(r, s2), hct⟩, ?_⟩
    rintro (⟨hf1, hf2⟩ | hf | hf)
    · rw [hst] at hf2; simp at hf2
    · exact ⟨r, s2, hct, himp (Or.inl hf)⟩
    · exact ⟨r, s2, hct, himp (Or.inr hf)⟩

/-- C2, counterexample: the claim states `call_tool` always returns a dict
value.  If the child answers with a line that is valid JSON but not an
object (say `5`), line 214 stores the parsed value and line 224 returns it
verbatim, so `call_tool` returns a non-dict despite its `-> Dict`
annotation. -/
theorem C2_counterexample :
    call_tool "minecraft_suggest_palette" "theme" c2_state c2_oracle 120 =
      .ok (.payload .scalar, c2_state) ∧
    CallResult.isDict (.payload .scalar) = false := by
  exact ⟨by rfl, by rfl⟩

/-- C2, amended: for every tool name, params, timeout, bridge state and
behaviour of the child process, `call_tool` returns normally — no
exception reaches the caller — and every failure mode (startup failure,
write failure, timeout, end of stream, unparseable response) yields a dict
containing an `error` key.  A successful read, however, returns the parsed
response line verbatim, which is a dict only when the child wrote a JSON
object. -/
theorem C2_no_raise (n p : String) (t : Nat) (s : BridgeState) (o : CallOracle) :
    (∃ rs, call_tool n p s o t = .ok rs) ∧
    (FailureMode s o → ∃ r s1, call_tool n p s o t = .ok (r, s1) ∧
      r.isDict = true ∧ r.hasErrorKey = true) := by
  cases ha : is_server_alive s with
  | false => exact call_tool_total_start n p t s o (by simp [ha])
  | true =>
    cases hi : s.mcp_initialized with
    | false => exact call_tool_total_start n p t s o (by simp [hi])
    | true =>
      obtain ⟨r, s2, heq, himp⟩ := handle_exchange_total t s o
      have hct : call_tool n p s o t = handle_call_exc s (call_exchange t s o) := by
        simp [call_tool, ha, hi]
      rw [heq] at hct
      refine ⟨⟨(r, s2), hct⟩, ?_⟩
      rintro (⟨hf1, hf2⟩ | hf | hf)
      · rw [ha, hi] at hf1; exact absurd hf1 (by decide)
      · exact ⟨r, s2, hct, himp (Or.inl hf)⟩
      · exact ⟨r, s2, hct, himp (Or.inr hf)⟩

/-- C2, witness: the amended theorem applied to a concrete broken-pipe
call. -/
theorem C2_no_raise_witness :
    FailureMode c2w_state c2w_oracle ∧
    (∃ r s1, call_tool "t" "a" c2w_state c2w_oracle 120 = .ok (r, s1) ∧
      r.isDict = true ∧ r.hasErrorKey = true) := by
  have hf : FailureMode c2w_state c2w_oracle := Or.inr (Or.inl (by decide))
  exact ⟨hf, (C2_no_raise "t" "a" 120 c2w_state c2w_oracle).2 hf⟩

/-- C4: if the request write raises a broken-pipe error, `call_tool`
returns exactly `{'error': 'Server connection lost'}`, drops the child
handle and clears the handshake flag; consequently the immediately
following `call_tool` re-attempts startup instead of reusing the dead
handle — under a benign environment it completes against a freshly
spawned child with the new pid. -/
theorem C4_broken_pipe (n p : String) (t : Nat) (s : BridgeState)
    (o : CallOracle) (halive : is_server_alive s = true)
    (hinit : s.mcp_initialized = true) (hav : s.mcp_available = true)
    (hw : o.write = .brokenPipe) :
    call_tool n p s o t =
      .ok (.errDict "Server connection lost",
        { s with process := none, mcp_initialized := false }) ∧
    (∀ (q : Nat) (n2 p2 : String) (t2 : Nat),
      call_tool n2 p2 { s with process := none, mcp_initialized := false }
        (goodRespawnOracle q) t2 =
        .ok (.payload (.obj false true), ⟨true, some ⟨q, true⟩, true⟩)) := by
  constructor
  · simp [call_tool, halive, hinit, hw, call_exchange, handle_call_exc]
  · intro q n2 p2 t2
    simp [call_tool, goodRespawnOracle, is_server_alive, start_server,
      stop_server, call_exchange, read_response, handle_call_exc, hav]

/-- C4, witness: a broken-pipe call on a concrete ready bridge, followed by
a call against a benign environment that spawns pid 7. -/
theorem C4_broken_pipe_witness :
    call_tool "tool" "args" c4_state c4_oracle 120 =
      .ok (.errDict "Server connection lost", ⟨true, none, false⟩) ∧
    call_tool "tool2" "args2" ⟨true, none, false⟩ (goodRespawnOracle 7) 99 =
      .ok (.payload (.obj false true), ⟨true, some ⟨7, true⟩, true⟩) := by
  have h := C4_broken_pipe "tool" "args" 120 c4_state c4_oracle rfl rfl rfl rfl
  exact ⟨h.1, h.2 7 "tool2" "args2" 99⟩

/-- C9: when `call_tool` times out and the child is still alive, the
bridge state is entirely unchanged — same child handle, handshake flag
still set — so the next call reuses the same child without a restart; when
the timeout re-check finds the child dead, only the handshake flag is
cleared and the handle is retained. -/
theorem C9_timeout_frame (n p : String) (t : Nat) (s : BridgeState)
    (o : CallOracle) (halive : is_server_alive s = true)
    (hinit : s.mcp_initialized = true) (hw : o.write = .ok)
    (hr : o.read = .pending) :
    (o.aliveAtTimeout = true →
      call_tool n p s o t = .ok (.errDict (timeoutMsg t), s)) ∧
    (o.aliveAtTimeout = false →
      call_tool n p s o t =
        .ok (.errDict (timeoutMsg t),
          { s with process := s.process.map fun q => ⟨q.pid, false⟩,
                   mcp_initialized := false })) := by
  obtain ⟨av, pr, fl⟩ := s
  cases pr with
  | none => simp [is_server_alive] at halive
  | some pc =>
    obtain ⟨pid, al⟩ := pc
    simp [is_server_alive] at halive
    subst halive
    have hfl : fl = true := hinit
    subst hfl
    constructor <;> intro hat <;>
      simp [call_tool, is_server_alive, hw, hr, hat, call_exchange,
        read_response, handle_call_exc]

/-- C9, witness: the theorem applied to a concrete ready bridge with a
silent but alive child: the resulting state equals the input state. -/
theorem C9_timeout_frame_witness :
    call_tool "x" "y" c9_state c9_oracle 60 =
      .ok (.errDict (timeoutMsg 60), c9_state) :=
  (C9_timeout_frame "x" "y" 60 c9_state c9_oracle rfl rfl rfl rfl).1 rfl

/-- `stop_server` never changes `mcp_available`. -/
theorem stop_avail (s : BridgeState) :
    (stop_server s).mcp_available = s.mcp_available := by
  simp [stop_server]

/-- `start_server` never changes `mcp_available`. -/
theorem start_avail (s : BridgeState) (f : Bool) (o : StartOracle) :
    ((start_server s f o).2).mcp_available = s.mcp_available := by
  unfold start_server
  repeat' split
  all_goals first | rfl | simp_all [stop_server]

/-- The exchange under its handlers never changes `mcp_available`. -/
theorem exchange_avail (t : Nat) (s : BridgeState) (o : CallOracle)
    (r : CallResult) (s1 : BridgeState)
    (h : handle_call_exc s (call_exchange t s o) = .ok (r, s1)) :
    s1.mcp_available = s.mcp_available := by
  cases hw : o.write with
  | brokenPipe =>
    simp only [call_exchange, hw, handle_call_exc, Except.ok.injEq,
      Prod.mk.injEq] at h
    obtain ⟨h1, h2⟩ := h
    subst h2
    rfl
  | otherExc m =>
    simp only [call_exchange, hw, handle_call_exc, Except.ok.injEq,
      Prod.mk.injEq] at h
    obtain ⟨h1, h2⟩ := h
    subst h2
    rfl
  | ok =>
    cases hr : o.read with
    | pending =>
      simp only [call_exchange, hw, hr, read_response, handle_call_exc,
        Except.ok.injEq, Prod.mk.injEq] at h
      obtain ⟨h1, h2⟩ := h
      subst h2
      rfl
    | eof =>
      simp only [call_exchange, hw, hr, read_response, handle_call_exc,
        Except.ok.injEq, Prod.mk.injEq] at h
      obtain ⟨h1, h2⟩ := h
      subst h2
      rfl
    | line c =>
      cases c with
      | notJson m =>
        simp only [call_exchange, hw, hr, read_response, handle_call_exc,
          Except.ok.injEq, Prod.mk.injEq] at h
        obtain ⟨h1, h2⟩ := h
        subst h2
        rfl
      | json v =>
        simp only [call_exchange, hw, hr, read_response, handle_call_exc,
          Except.ok.injEq, Prod.mk.injEq] at h
        obtain ⟨h1, h2⟩ := h
        subst h2
        rfl

/-- `call_tool` never changes `mcp_available`. -/
theorem call_post_avail (n p : String) (s : BridgeState) (o : CallOracle)
    (t : Nat) : (call_tool_post n p s o t).mcp_available = s.mcp_available := by
  by_cases hcond : (!(is_server_alive s) || !s.mcp_initialized) = true
  · rcases hst : start_server s false o.start with ⟨b, s1⟩
    have hs1 : s1.mcp_available = s.mcp_available := by
      have h2 := start_avail s false o.start
      rw [hst] at h2
      exact h2
    cases b with
    | false =>
      have hc : call_tool n p s o t =
          .ok (.errDict "Failed to start MCP server", s1) := by
        simp [call_tool, hcond, hst]
      simp [call_tool_post, hc, hs1]
    | true =>
      obtain ⟨r, s2, heq, _⟩ := handle_exchange_total t s1 o
      have hc : call_tool n p s o t = handle_call_exc s1 (call_exchange t s1 o) := by
        simp [call_tool, hcond, hst]
      rw [heq] at hc
      have h4 := exchange_avail t s1 o r s2 heq
      simp [call_tool_post, hc]
      rw [h4, hs1]
  · have hcond2 : (!(is_server_alive s) || !s.mcp_initialized) = false := by
      cases hcc : (!(is_server_alive s) || !s.mcp_initialized)
      · rfl
      · exact absurd hcc hcond
    obtain ⟨r, s2, heq, _⟩ := handle_exchange_total t s o
    have hc : call_tool n p s o t = handle_call_exc s (call_exchange t s o) := by
      simp [call_tool, hcond2]
    rw [heq] at hc
    have h4 := exchange_avail t s o r s2 heq
    simp [call_tool_post, hc, h4]

/-- Along every reachable bridge state, a child handle exists only if the
executable resource was found: `start_server` refuses to spawn without it
and no operation changes `mcp_available`. -/
theorem bridge_reachable_inv {s : BridgeState} (h : BridgeReachable s) :
    BridgeInv s := by
  induction h with
  | init pe =>
    intro hp
    simp [bridge_init] at hp
  | start s f o hr ih =>
    intro hp
    rw [start_avail]
    by_cases ha : s.mcp_available = true
    · exact ha
    · have hfa : s.mcp_available = false := by
        cases hc : s.mcp_available
        · rfl
        · exact absurd hc ha
      have hpost : (start_server s f o).2 = s := by simp [start_server, hfa]
      rw [hpost] at hp
      exact ih hp
  | call s n p o t hr ih =>
    intro hp
    rw [call_post_avail]
    by_cases ha : s.mcp_available = true
    · exact ha
    · have hfa : s.mcp_available = false := by
        cases hc : s.mcp_available
        · rfl
        · exact absurd hc ha
      have hproc : s.process = none := by
        cases hc : s.process with
        | none => rfl
        | some pc => exact absurd (ih (by simp [hc])) (by simp [hfa])
      have hpost : call_tool_post n p s o t = s := by
        simp [call_tool_post, call_tool, is_server_alive, hproc, start_server, hfa]
      rw [hpost] at hp
      exact ih hp
  | stop s hr ih =>
    intro hp
    simp [stop_server] at hp
  | childDies s hr ih =>
    intro hp
    have hsome : s.process.isSome = true := by
      cases hc : s.process <;> simp [hc] at hp ⊢
    exact ih hsome

/-- C7: in every reachable state with a live child and the handshake flag
set, `start_server(force_restart=False)` returns `True` and changes
nothing — same child handle, same flag — and calling it twice in a row
returns `True` both times, leaving exactly the state of one call. -/
theorem C7_idempotent_start (s : BridgeState) (o o2 : StartOracle)
    (hreach : BridgeReachable s) (halive : is_server_alive s = true)
    (hinit : s.mcp_initialized = true) :
    start_server s false o = (true, s) ∧
    start_server (start_server s false o).2 false o2 = (true, s) := by
  have hsome : s.process.isSome = true := by
    cases hc : s.process
    · simp [is_server_alive, hc] at halive
    · rfl
  have hav : s.mcp_available = true := bridge_reachable_inv hreach hsome
  have h1 : start_server s false o = (true, s) := by
    simp [start_server, hav, halive, hinit]
  refine ⟨h1, ?_⟩
  rw [h1]
  simp [start_server, hav, halive, hinit]

/-- C7, witness: the theorem applied to the concrete reachable ready
state. -/
theorem C7_idempotent_start_witness :
    BridgeReachable c7_state ∧
    start_server c7_state false ⟨true, 9, true, .timeout⟩ = (true, c7_state) := by
  have hr : BridgeReachable c7_state :=
    BridgeReachable.start (bridge_init true) false c7_start_oracle
      (BridgeReachable.init true)
  exact ⟨hr,
    (C7_idempotent_start c7_state ⟨true, 9, true, .timeout⟩
      ⟨true, 9, true, .timeout⟩ hr rfl rfl).1⟩

/-- C3, counterexample: the claim says every handshake failure other than
timeout results in `False`.  But when the child's first line is a JSON
object with neither an `error` nor a `result` field (say `{}`), both field
tests at lines 150 and 154 fail, the handshake flag is never set — the
handshake did not succeed and no timeout occurred — yet `start_server`
falls through to line 167 and returns `True`. -/
theorem C3_counterexample :
    (start_server (bridge_init true) false c3_oracle).1 = true ∧
    ((start_server (bridge_init true) false c3_oracle).2).mcp_initialized = false ∧
    c3_oracle.hs ≠ .timeout := by
  refine ⟨by rfl, by rfl, by decide⟩

/-- C3, amended: with the executable present and the startup sequence
actually running, `start_server` returns `False` exactly when the spawn
fails, the child dies within the settle delay, or the first line is a JSON
object with an `error` field (in which case the child is stopped).  An
object with a `result` field sets the handshake flag and returns `True`.
A timeout, a write failure during the handshake, an unparseable line, a
scalar JSON line (number, boolean or null — the membership test raises
`TypeError`, which is caught), and a JSON string or array on which a
containment test hits (the subscript then raises, caught, the flag in the
`result` case having been set just before) all mark the handshake complete
anyway and return `True`.  An object, string or array on which neither
test hits returns `True` leaving the flag unchanged. -/
theorem C3_start_result (s : BridgeState) (o : StartOracle)
    (hav : s.mcp_available = true)
    (hneed : is_server_alive s = false ∨ s.mcp_initialized = false) :
    (o.spawnOk = false → (start_server s false o).1 = false) ∧
    (o.spawnOk = true → o.aliveAfterSettle = false →
      (start_server s false o).1 = false) ∧
    (o.spawnOk = true → o.aliveAfterSettle = true →
      (match o.hs with
       | .line (.json (.obj true hr2)) =>
         start_server s false o = (false, ⟨true, none, false⟩)
       | .line (.json (.obj false true)) =>
         (start_server s false o).1 = true ∧
         ((start_server s false o).2).mcp_initialized = true
       | .line (.json (.obj false false)) =>
         (start_server s false o).1 = true ∧
         ((start_server s false o).2).mcp_initialized =
           (!s.process.isSome && s.mcp_initialized)
       | .line (.json (.strOrList true hr2)) =>
         (start_server s false o).1 = true ∧
         ((start_server s false o).2).mcp_initialized = true
       | .line (.json (.strOrList false true)) =>
         (start_server s false o).1 = true ∧
         ((start_server s false o).2).mcp_initialized = true
       | .line (.json (.strOrList false false)) =>
         (start_server s false o).1 = true ∧
         ((start_server s false o).2).mcp_initialized =
           (!s.process.isSome && s.mcp_initialized)
       | .line (.json .scalar) =>
         (start_server s false o).1 = true ∧
         ((start_server s false o).2).mcp_initialized = true
       | .line (.notJson _) =>
         (start_server s false o).1 = true ∧
         ((start_server s false o).2).mcp_initialized = true
       | .timeout =>
         (start_server s false o).1 = true ∧
         ((start_server s false o).2).mcp_initialized = true
       | .writeRaises _ =>
         (start_server s false o).1 = true ∧
         ((start_server s false o).2).mcp_initialized = true)) := by
  refine ⟨?_, ?_, ?_⟩
  · intro hsp
    rcases hneed with h | h <;> simp [start_server, hav, h, hsp]
  · intro hsp hset
    rcases hneed with h | h <;> simp [start_server, hav, h, hsp, hset]
  · intro hsp hset
    cases hhs : o.hs with
    | writeRaises m =>
      rcases hneed with h | h <;> simp [start_server, hav, h, hsp, hset, hhs]
    | timeout =>
      rcases hneed with h | h <;> simp [start_server, hav, h, hsp, hset, hhs]
    | line c =>
      cases c with
      | notJson m =>
        rcases hneed with h | h <;> simp [start_server, hav, h, hsp, hset, hhs]
      | json v =>
        cases v with
        | scalar =>
          rcases hneed with h | h <;> simp [start_server, hav, h, hsp, hset, hhs]
        | strOrList he hr2 =>
          cases he with
          | true =>
            rcases hneed with h | h <;>
              simp [start_server, hav, h, hsp, hset, hhs]
          | false =>
            cases hr2 with
            | true =>
              rcases hneed with h | h <;>
                simp [start_server, hav, h, hsp, hset, hhs]
            | false =>
              rcases hneed with h | h
              · cases hp : s.process with
                | none =>
                  simp [start_server, stop_server, is_server_alive, hav, h,
                    hsp, hset, hhs, hp]
                | some pc =>
                  have hal : pc.alive = false := by
                    simp [is_server_alive, hp] at h
                    exact h
                  simp [start_server, stop_server, is_server_alive, hav,
                    hsp, hset, hhs, hp, hal]
              · cases hp : s.process <;>
                  simp [start_server, stop_server, is_server_alive, hav, h,
                    hsp, hset, hhs, hp]
        | obj he hr2 =>
          cases he with
          | true =>
            rcases hneed with h | h
            · cases hp : s.process with
              | none =>
                simp [start_server, stop_server, is_server_alive, hav, h,
                  hsp, hset, hhs, hp]
              | some pc =>
                have hal : pc.alive = false := by
                  simp [is_server_alive, hp] at h
                  exact h
                simp [start_server, stop_server, is_server_alive, hav,
                  hsp, hset, hhs, hp, hal]
            · cases hp : s.process <;>
                simp [start_server, stop_server, is_server_alive, hav, h,
                  hsp, hset, hhs, hp]
          | false =>
            cases hr2 with
            | true =>
              rcases hneed with h | h <;>
                simp [start_server, hav, h, hsp, hset, hhs]
            | false =>
              rcases hneed with h | h
              · cases hp : s.process with
                | none =>
                  simp [start_server, stop_server, is_server_alive, hav, h,
                    hsp, hset, hhs, hp]
                | some pc =>
                  have hal : pc.alive = false := by
                    simp [is_server_alive, hp] at h
                    exact h
                  simp [start_server, stop_server, is_server_alive, hav,
                    hsp, hset, hhs, hp, hal]
              · cases hp : s.process <;>
                  simp [start_server, stop_server, is_server_alive, hav, h,
                    hsp, hset, hhs, hp]

/-- C3, witness: the amended theorem applied to a fresh bridge whose child
stays silent through the handshake window: `start_server` returns `True`
and marks the handshake complete. -/
theorem C3_start_result_witness :
    (start_server (bridge_init true) false
      (⟨true, 3, true, .timeout⟩ : StartOracle)).1 = true ∧
    ((start_server (bridge_init true) false
      (⟨true, 3, true, .timeout⟩ : StartOracle)).2).mcp_initialized = true :=
  (C3_start_result (bridge_init true) ⟨true, 3, true, .timeout⟩ rfl
    (Or.inl rfl)).2.2 rfl rfl

/-- In every reachable lock-system state, a thread inside the critical
section of `call_tool` is the one holding `self._call_lock`. -/
theorem lock_inv {s : LockSys} (h : LockReachable s) :
    ∀ t, InFlight s t → s.lock = some t := by
  induction h with
  | init =>
    intro t ht
    rcases ht with h1 | h1 <;> simp [lockSysInit] at h1
  | step s s' hr hst ih =>
    cases hst with
    | acquire t0 hl hp =>
      intro t ht
      by_cases hte : t = t0
      · subst hte
        rfl
      · have ht' : InFlight s t := by
          simpa [InFlight, setPhase, hte] using ht
        have h2 := ih t ht'
        rw [hl] at h2
        simp at h2
    | writeReq t0 hl hp =>
      intro t ht
      by_cases hte : t = t0
      · subst hte
        exact hl
      · have ht' : InFlight s t := by
          simpa [InFlight, setPhase, hte] using ht
        exact ih t ht'
    | finish t0 hl hp =>
      intro t ht
      by_cases hte : t = t0
      · subst hte
        rcases ht with h1 | h1 <;> simp [setPhase] at h1
      · have ht' : InFlight s t := by
          simpa [InFlight, setPhase, hte] using ht
        have h2 := ih t ht'
        rw [hl] at h2
        rw [Option.some_inj] at h2
        exact absurd h2.symm hte

/-- C1: concurrent `call_tool` invocations are globally serialized by the
single call lock: in every reachable interleaving state, any two threads
that are inside the request/response exchange — having written, or about
to write, a request and awaiting its response — are the same thread.  In
particular at most one request is awaiting a response at any instant, and
no two request writes interleave, since a write requires holding the lock
while any mid-exchange thread holds it. -/
theorem C1_mutual_exclusion (s : LockSys) (h : LockReachable s)
    (t1 t2 : Nat) (h1 : InFlight s t1) (h2 : InFlight s t2) : t1 = t2 := by
  have e1 := lock_inv h t1 h1
  have e2 := lock_inv h t2 h2
  rw [e1] at e2
  exact Option.some_inj.mp e2

/-- C1, witness: after thread 0 acquires the lock and writes its request,
the state is reachable, thread 0 is in flight, and the theorem applies. -/
theorem C1_mutual_exclusion_witness :
    LockReachable c1s2 ∧ InFlight c1s2 0 ∧ (0 : Nat) = 0 := by
  have h1 : LockReachable c1s1 :=
    LockReachable.step lockSysInit c1s1 LockReachable.init
      (LockStep.acquire lockSysInit 0 rfl rfl)
  have h2 : LockReachable c1s2 :=
    LockReachable.step c1s1 c1s2 h1
      (LockStep.writeReq c1s1 0 rfl (by decide))
  have hf : InFlight c1s2 0 := Or.inr (by decide)
  exact ⟨h2, hf, C1_mutual_exclusion c1s2 h2 0 0 hf hf⟩
